import Mathlib

set_option maxHeartbeats 1000000
set_option maxRecDepth 100000

/-! Verification of the atfrunner test-automation runner: a shallow
embedding of runner.go and main.go (the Runner lifecycle, the logging
pipeline setup and the multi-format report emitter), with theorems
checking the specification against the embedded code. External
collaborators (the atf collector, executor and renderers, and the utils
logging library) are modelled as explicit oracles passed in environment
records; file writes and log output are modelled as explicit values
returned by the operations. -/

/-- Severity levels of the utils logging library, modelled from the spec:
Debug, Informational, Notice, Warning and Error form a total order with
Debug lowest. -/
inductive Severity where
  | Debug
  | Informational
  | Notice
  | Warning
  | Error
  deriving DecidableEq

/-- Kinds of log handler destinations: file, console stream, syslog. -/
inductive HandlerKind where
  | file
  | stream
  | syslog
  deriving DecidableEq

/-- One log handler: destination kind, minimum severity, format template. -/
structure Handler where
  kind : HandlerKind
  level : Severity
  format : String
  deriving DecidableEq

/-- One call into the logging pipeline: either through a severity-named
convenience method (Notice, Warning, Error) or through LogS, which takes
the level as a string. -/
inductive LogCall where
  | sev (level : Severity) (msg : String)
  | str (level : String) (msg : String)
  deriving DecidableEq

/-- Modelled from the spec: the test set loaded by the external
collector; only its name is consumed by this package. -/
structure TestSet where
  Name : String
  deriving DecidableEq

/-- The test report wrapping a test set, as used by runner.go: a possibly
nil pointer to the test set and the two execution timestamps. -/
structure TestReport where
  TestSet : Option TestSet
  Started : String
  Finished : String
  deriving DecidableEq

/-- The Runner structure of runner.go. The Go field logger (a utils.Log
pointer) is represented by its handler list; the log output itself is
modelled as explicit lists of LogCall values returned by the operations. -/
structure Runner where
  tr : Option TestReport
  input : String
  workdir : String
  logfile : String
  syslog : String
  report : String
  cssfile : String
  xml : Bool
  json : Bool
  par : Bool
  debug : Bool
  handlers : List Handler
  deriving DecidableEq

/-- NewRunner creates a new Runner instance: fresh logger state and par
defaulting to false (run sequentially by default). -/
def NewRunner : Runner :=
  { tr := none, input := "", workdir := "", logfile := "", syslog := "",
    report := "", cssfile := "", xml := false, json := false, par := false,
    debug := false, handlers := [] }

/-- SetParallel sets the flag to execute the test cases in parallel. -/
def SetParallel (r : Runner) : Runner := { r with par := true }

/-- Platform facts and ambient values consumed by setWorkDir: whether
GOOS is windows, the environment variables, and the value produced by
utils.NowFile (a timestamp usable inside a file name). -/
structure Plat where
  isWindows : Bool
  getenv : String → String
  nowFile : String

/-- filepath.ToSlash: on windows every separator backslash is replaced by
a forward slash; on POSIX platforms the separator already is the slash
and the string is returned unchanged. -/
def filepathToSlash (isWindows : Bool) (s : String) : String :=
  if isWindows then String.mk (s.data.map (fun c => if c = '\\' then '/' else c)) else s

/-- path.Join of the Go standard library, modelled as joining the
non-empty components with slashes; the path cleaning step is omitted, as
no claim depends on it. -/
def pathJoin (parts : List String) : String :=
  String.intercalate "/" (parts.filter (fun p => p != ""))

/-- path.IsAbs: a slash-path is absolute when it starts with a slash. -/
def pathIsAbs (s : String) : Bool := s.startsWith "/"

/-- setWorkDir (runner.go lines 77-88): when basedir is empty it is
rebuilt from the platform home variable (USERPROFILE on windows, HOME
otherwise) joined with atfrunner and name_timestamp; the working
directory becomes the separator-normalized result. -/
def setWorkDir (p : Plat) (r : Runner) (basedir tsName : String) : Runner :=
  if basedir = "" then
    let home := if p.isWindows then p.getenv "USERPROFILE" else p.getenv "HOME"
    let b := pathJoin [home, "atfrunner", tsName ++ "_" ++ p.nowFile]
    { r with workdir := filepathToSlash p.isWindows b }
  else
    { r with workdir := filepathToSlash p.isWindows basedir }

/-- Spec-side definition of resolveWorkDir(basedir, testSetName),
following the words of section 4.1 of the specification, to be compared
with setWorkDir. -/
def resolveWorkDirSpec (p : Plat) (basedir tsName : String) : String :=
  if basedir = "" then
    let home := if p.isWindows then p.getenv "USERPROFILE" else p.getenv "HOME"
    filepathToSlash p.isWindows (pathJoin [home, "atfrunner", tsName ++ "_" ++ p.nowFile])
  else
    filepathToSlash p.isWindows basedir

/-- Default severity for the syslog handler. -/
def defSyslogLevel : Severity := Severity.Notice

/-- Default severity for the file handler. -/
def defFileLevel : Severity := Severity.Informational

/-- Default severity for the stream handler; declared but, as in the
source, never read: the stream handler is built with the syslog level. -/
def defStreamLevel : Severity := Severity.Notice

/-- Oracle outcomes for the fallible constructors of the utils logging
library: NewFileHandler may fail with an error, and NewSyslogHandler may
return a nil handler. -/
structure LogEnv where
  fileErr : Option String
  syslogOk : Bool

/-- createLoggers (runner.go lines 152-182): pick the file level and the
common stream and syslog level (both dropped to Debug in debug mode),
create the file handler propagating its error, then the stream handler,
then the syslog handler when a syslog target is configured. -/
def createLoggers (env : LogEnv) (r : Runner) (format : String) (debug : Bool) :
    Except String (List Handler) :=
  let fLevel := if debug then Severity.Debug else defFileLevel
  let sLevel := if debug then Severity.Debug else defSyslogLevel
  match env.fileErr with
  | some e => Except.error e
  | none =>
    let hs : List Handler := [⟨HandlerKind.file, fLevel, format⟩]
    let hs := hs ++ [⟨HandlerKind.stream, sLevel, format⟩]
    let hs := if r.syslog ≠ "" then
        (if env.syslogOk then hs ++ [⟨HandlerKind.syslog, sLevel, format⟩] else hs)
      else hs
    Except.ok hs

/-- createLog (runner.go lines 122-149): resolve the log file path (an
absolute path is kept, a relative one is joined under the working
directory, the default is output.log there), create the handlers, then
emit the Warning confirmation line. -/
def createLog (env : LogEnv) (r : Runner) : Except String (Runner × List LogCall) :=
  let logfile := if r.logfile ≠ "" then
      (if pathIsAbs r.logfile then r.logfile else pathJoin [r.workdir, r.logfile])
    else pathJoin [r.workdir, "output.log"]
  let r1 := { r with logfile := logfile }
  match createLoggers env r1 "%s %s %s" r1.debug with
  | Except.error e => Except.error e
  | Except.ok hs =>
      Except.ok ({ r1 with handlers := hs },
        [LogCall.sev Severity.Warning "Log successfully created\n"])

/-- Modelled from the spec: the external report constructor
createTestReport wraps the collected test set into a fresh report. -/
def createTestReport (ts : TestSet) : TestReport := ⟨some ts, "", ""⟩

/-- Oracles for initialize: platform facts, the result of the external
collector (a nil test set is possible), the MkdirAll outcome and the
logging construction oracles. -/
structure InitEnv where
  plat : Plat
  collectRes : Option TestSet
  mkdirErr : Option String
  log : LogEnv

/-- collect (runner.go lines 92-108): an empty input path is a
configuration error; a nil collector result is an empty test set; a good
result is wrapped into the test report. The collected test set is also
returned for later use of its name. -/
def collect (env : InitEnv) (r : Runner) : Except String (Runner × TestSet) :=
  if r.input ≠ "" then
    match env.collectRes with
    | none => Except.error "Test set is empty."
    | some ts => Except.ok ({ r with tr := some (createTestReport ts) }, ts)
  else Except.error "There's no configuration file defined."

/-- On-disk side effects of initialize: the directories and the log files
created. -/
structure Effects where
  dirsCreated : List String
  logFilesCreated : List String
  deriving DecidableEq

/-- Embedding of the Runner method at runner.go lines 185-201 (named
after its Go receiver method, which is a Lean keyword, hence the R):
collect the configuration, then resolve the working directory, create it,
and build the log pipeline; the result also carries the side effects and
the log lines emitted. -/
def initRunner (env : InitEnv) (r : Runner) :
    Except String Runner × Effects × List LogCall :=
  match collect env r with
  | Except.error e => (Except.error e, ⟨[], []⟩, [])
  | Except.ok (r1, ts) =>
    let r2 := setWorkDir env.plat r1 r1.workdir ts.Name
    match env.mkdirErr with
    | some e => (Except.error e, ⟨[], []⟩, [])
    | none =>
      match createLog env.log r2 with
      | Except.error e => (Except.error e, ⟨[r2.workdir], []⟩, [])
      | Except.ok (r3, lgs) => (Except.ok r3, ⟨[r2.workdir], [r3.logfile]⟩, lgs)

/-- Oracles for Run: the two timestamps taken and the sequence of
argument lists with which the external executor invokes the logging
callback. -/
structure RunEnv where
  nowStart : String
  nowFinish : String
  execCalls : List (List String)

/-- The logging closure passed to the external executor (runner.go lines
206-216): fewer than two arguments is a caller-contract violation and
panics (modelled as none); otherwise the first argument is the level, the
second the message, and the rest is ignored. -/
def execCallback : List String → Option LogCall
  | lvl :: msg :: _ => some (LogCall.str lvl msg)
  | _ => none

/-- Replay of the callback invocations made by the executor: an error
carries the log calls delivered before the panicking invocation. -/
def runExec : List (List String) → Except (List LogCall) (List LogCall)
  | [] => Except.ok []
  | ps :: rest =>
    match execCallback ps with
    | none => Except.error []
    | some l =>
      match runExec rest with
      | Except.error ls => Except.error (l :: ls)
      | Except.ok ls => Except.ok (l :: ls)

/-- Go-style quoting for the %q format verb; escaping of special
characters is omitted, as the claims apply it to plain names only. -/
def goQuote (s : String) : String := "\"" ++ s ++ "\""

/-- Run (runner.go lines 204-234): record the start timestamp and log it,
execute the test set through the external executor when it is present,
then record the finish timestamp and log the end lines. The final Notice
line reads the test set name without a nil check, so with a nil test set
the function panics right after skipping the executor; an error value
models a panic and carries the log calls emitted before it. -/
def Run (env : RunEnv) (r : Runner) :
    Except (List LogCall) (TestReport × List LogCall) :=
  match r.tr with
  | none => Except.error []
  | some tr =>
    let tr1 := { tr with Started := env.nowStart }
    let l1 := LogCall.sev Severity.Notice ("     Started: " ++ env.nowStart ++ "\n")
    match tr1.TestSet with
    | some ts =>
      let l2 := LogCall.sev Severity.Notice ("# Starting Test set: " ++ goQuote ts.Name ++ "\n")
      match runExec env.execCalls with
      | Except.error els => Except.error (l1 :: l2 :: els)
      | Except.ok els =>
        Except.ok ({ tr1 with Finished := env.nowFinish },
          l1 :: l2 :: (els ++
            [LogCall.sev Severity.Notice ("# Test set: " ++ goQuote ts.Name ++ " end.\n"),
             LogCall.sev Severity.Notice ("     Finished: " ++ env.nowFinish ++ "\n")]))
    | none => Except.error [l1]

/-- The mandatory CSS file shipped with the runner. -/
def mandatoryCSS : String := "cfg/always.css"

/-- Helper of baseName: the characters of the last slash-free segment,
with the characters of the current segment accumulated in reverse. -/
def lastSegment : List Char → List Char → List Char
  | acc, [] => acc.reverse
  | _, '/' :: rest => lastSegment [] rest
  | acc, c :: rest => lastSegment (c :: acc) rest

/-- Base name of a slash-path: the part after the last slash, as returned
in the second component of path.Split. -/
def baseName (s : String) : String := String.mk (lastSegment [] s.data)

/-- createHTMLHeader (runner.go lines 239-253): doctype, head with UTF-8
charset meta, title with the test set name, and stylesheet links to the
base names of the mandatory CSS and of the user CSS. -/
def createHTMLHeader (r : Runner) (name : String) : String :=
  "<!DOCTYPE html>\n"
  ++ "<html>\n<head>\n"
  ++ ("<meta charset=" ++ goQuote "utf-8" ++ ">\n")
  ++ ("<title>Report: " ++ name ++ "</title>\n")
  ++ "<link rel=\"stylesheet\" type=\"text/css\" "
  ++ ("href=" ++ goQuote (baseName mandatoryCSS) ++ ">\n")
  ++ "<link rel=\"stylesheet\" type=\"text/css\" "
  ++ ("href=" ++ goQuote (baseName r.cssfile) ++ ">\n")
  ++ "</head>\n"

/-- Oracles for createHTMLReport: the rendered HTML fragment from the
external renderer, the OpenFile outcome and the outcomes of the two
utils.CopyFile calls. -/
structure HtmlEnv where
  render : Except String String
  openErr : Option String
  copyMandErr : Option String
  copyUserErr : Option String

/-- createHTMLReport (runner.go lines 295-321): header and body are
assembled and written, then the two CSS files are copied next to the
report. As in the source, the error of the copy of the mandatory CSS is
overwritten by the result of the copy of the user CSS before the error
check, so only a failure of the second copy is returned. A none result
models the nil-pointer panic on a missing report or test set; an ok
result lists the report files written as path-content pairs. -/
def createHTMLReport (env : HtmlEnv) (r : Runner) (filename : String) :
    Option (Except String (List (String × String))) :=
  match r.tr with
  | none => none
  | some tr =>
    match tr.TestSet with
    | none => none
    | some ts =>
      some (
        match env.render with
        | Except.error e => Except.error e
        | Except.ok h =>
          match env.openErr with
          | some e => Except.error e
          | none =>
            let content := createHTMLHeader r ts.Name ++ "<body>\n" ++ h ++ "</body>\n</html>\n"
            match env.copyUserErr with
            | some e => Except.error e
            | none => Except.ok [(filename, content)])

/-- Oracles for createXMLReport: the rendered XML document and the
OpenFile outcome. -/
structure XmlEnv where
  render : Except String String
  openErr : Option String

/-- createXMLReport (runner.go lines 256-273): the fixed XML declaration
followed by the rendered document, written to the given file. -/
def createXMLReport (env : XmlEnv) (r : Runner) (filename : String) :
    Except String (List (String × String)) :=
  match env.render with
  | Except.error e => Except.error e
  | Except.ok x =>
    match env.openErr with
    | some e => Except.error e
    | none =>
      Except.ok [(filename,
        "<?xml version=" ++ goQuote "1.0" ++ " encoding=" ++ goQuote "UTF-8" ++ "?>" ++ x)]

/-- Oracles for createJSONReport: the rendered JSON document and the
os.Create outcome. -/
structure JsonEnv where
  render : Except String String
  createErr : Option String

/-- createJSONReport (runner.go lines 276-292): the rendered JSON
document written verbatim to the given file. -/
def createJSONReport (env : JsonEnv) (r : Runner) (filename : String) :
    Except String (List (String × String)) :=
  match env.render with
  | Except.error e => Except.error e
  | Except.ok j =>
    match env.createErr with
    | some e => Except.error e
    | none => Except.ok [(filename, j)]

/-- The three report formats, used to record which emissions were
attempted. -/
inductive Fmt where
  | html
  | xml
  | json
  deriving DecidableEq

/-- Oracles for CreateReports: one oracle record per report format. -/
structure ReportsEnv where
  html : HtmlEnv
  xml : XmlEnv
  json : JsonEnv

/-- Separator-normalized path of the HTML report under the working
directory. -/
def htmlReportPath (os : Bool) (r : Runner) : String :=
  filepathToSlash os (pathJoin [r.workdir, "report.html"])

/-- Separator-normalized path of the XML report under the working
directory. -/
def xmlReportPath (os : Bool) (r : Runner) : String :=
  filepathToSlash os (pathJoin [r.workdir, "report.xml"])

/-- Separator-normalized path of the JSON report under the working
directory. -/
def jsonReportPath (os : Bool) (r : Runner) : String :=
  filepathToSlash os (pathJoin [r.workdir, "report.json"])

/-- The JSON stage of CreateReports (runner.go lines 347-357): emit the
JSON report upon request, logging success at Notice and failure with two
Error lines. -/
def jsonStage (os : Bool) (env : ReportsEnv) (r : Runner)
    (logs : List LogCall) (att : List Fmt) (ws : List (String × String)) :
    Option (List LogCall × List Fmt × List (String × String)) :=
  if r.json then
    match createJSONReport env.json r (jsonReportPath os r) with
    | Except.error e =>
        some (logs ++ [LogCall.sev Severity.Error "JSON report could not be created.\n",
                       LogCall.sev Severity.Error ("Reason: " ++ e ++ "\n")],
              att ++ [Fmt.json], ws)
    | Except.ok ws3 =>
        some (logs ++ [LogCall.sev Severity.Notice
                ("JSON report " ++ goQuote (jsonReportPath os r) ++ " created.\n")],
              att ++ [Fmt.json], ws ++ ws3)
  else some (logs, att, ws)

/-- CreateReports (runner.go lines 324-358): the HTML report always comes
first; any failure logs two Error lines and returns at once, so the later
formats are not attempted; XML and JSON follow only upon request. The
Error label printed for an HTML failure is the XML one, as in the source.
A none result models the nil-pointer panic; some carries the log calls,
the formats attempted and the report files written. -/
def CreateReports (os : Bool) (env : ReportsEnv) (r : Runner) :
    Option (List LogCall × List Fmt × List (String × String)) :=
  match createHTMLReport env.html r (htmlReportPath os r) with
  | none => none
  | some (Except.error e) =>
      some ([LogCall.sev Severity.Error "XML report could not be created.\n",
             LogCall.sev Severity.Error ("Reason: " ++ e ++ "\n")], [Fmt.html], [])
  | some (Except.ok ws1) =>
      let logs1 := [LogCall.sev Severity.Notice
        ("HTML report " ++ goQuote (htmlReportPath os r) ++ " created.\n")]
      if r.xml then
        match createXMLReport env.xml r (xmlReportPath os r) with
        | Except.error e =>
            some (logs1 ++ [LogCall.sev Severity.Error "XML report could not be created.\n",
                            LogCall.sev Severity.Error ("Reason: " ++ e ++ "\n")],
                  [Fmt.html, Fmt.xml], ws1)
        | Except.ok ws2 =>
            jsonStage os env r
              (logs1 ++ [LogCall.sev Severity.Notice
                ("XML report " ++ goQuote (xmlReportPath os r) ++ " created.\n")])
              [Fmt.html, Fmt.xml] (ws1 ++ ws2)
      else jsonStage os env r logs1 [Fmt.html] ws1

/-- Observable outcome of one whole run of main (main.go lines 34-56):
standard output lines, log calls, on-disk effects, report files written,
report formats attempted, the exit code, and whether the process
panicked. -/
structure MainObs where
  stdout : List String
  logs : List LogCall
  eff : Effects
  files : List (String × String)
  attempted : List Fmt
  exitCode : Nat
  panicked : Bool
  deriving DecidableEq

/-- main (main.go): initialize the runner, bail out with the help text
and exit code 1 on failure, otherwise Run and then CreateReports. -/
def mainGo (ie : InitEnv) (re : RunEnv) (cre : ReportsEnv) (os : Bool) (r : Runner) : MainObs :=
  match initRunner ie r with
  | (Except.error e, eff, lgs) =>
      { stdout := [e, "Please define the input configuration file",
                   "Use '-h' switch to display help", "Exiting..."],
        logs := lgs, eff := eff, files := [], attempted := [],
        exitCode := 1, panicked := false }
  | (Except.ok r1, eff, lgs) =>
      match Run re r1 with
      | Except.error plogs =>
          { stdout := [], logs := lgs ++ plogs, eff := eff, files := [],
            attempted := [], exitCode := 2, panicked := true }
      | Except.ok (tr2, rlogs) =>
          match CreateReports os cre { r1 with tr := some tr2 } with
          | none =>
              { stdout := [], logs := lgs ++ rlogs, eff := eff, files := [],
                attempted := [], exitCode := 2, panicked := true }
          | some (clogs, att, ws) =>
              { stdout := [], logs := lgs ++ rlogs ++ clogs, eff := eff, files := ws,
                attempted := att, exitCode := 0, panicked := false }

/-- Boolean prefix test on character lists. -/
def isPrefixB : List Char → List Char → Bool
  | [], _ => true
  | _ :: _, [] => false
  | a :: as, b :: bs => a == b && isPrefixB as bs

/-- Boolean substring test on character lists: the needle occurs at some
position of the haystack. -/
def containsL (needle : List Char) : List Char → Bool
  | [] => isPrefixB needle []
  | b :: bs => isPrefixB needle (b :: bs) || containsL needle bs

/-- Substring test on strings. -/
def strContains (hay needle : String) : Bool := containsL needle.data hay.data

/-- Concrete test set used by the witnesses. -/
def demoTestSet : TestSet := ⟨"Demo"⟩

/-- Concrete test report used by the witnesses. -/
def demoReport : TestReport := ⟨some demoTestSet, "", ""⟩

/-- Concrete runner used by the witnesses: both optional reports
requested, default user CSS. -/
def demoRunner : Runner :=
  { tr := some demoReport, input := "demo.json", workdir := "/w", logfile := "",
    syslog := "", report := "", cssfile := "cfg/report_def.css", xml := true,
    json := true, par := false, debug := false, handlers := [] }

/-- HTML oracles of a fully successful emission of the fragment. -/
def demoHtmlEnv : HtmlEnv :=
  { render := Except.ok "<p>ok</p>", openErr := none,
    copyMandErr := none, copyUserErr := none }

/-- The HTML report content produced for demoRunner and the fragment. -/
def demoContent : String :=
  createHTMLHeader demoRunner "Demo" ++ "<body>\n" ++ "<p>ok</p>" ++ "</body>\n</html>\n"

/-- HTML oracles where only the copy of the mandatory CSS file fails. -/
def cssFailEnv : HtmlEnv :=
  { render := Except.ok "<p>ok</p>", openErr := none,
    copyMandErr := some "open cfg/always.css: permission denied", copyUserErr := none }

/-- HTML oracles where the external renderer fails. -/
def failHtmlEnv : HtmlEnv :=
  { render := Except.error "boom", openErr := none,
    copyMandErr := none, copyUserErr := none }

/-- XML oracles of a successful emission. -/
def wXmlEnv : XmlEnv := { render := Except.ok "<testset/>", openErr := none }

/-- XML oracles of a failed emission. -/
def failXmlEnv : XmlEnv := { render := Except.error "xml-broken", openErr := none }

/-- JSON oracles of a successful emission. -/
def wJsonEnv : JsonEnv := { render := Except.ok "null", createErr := none }

/-- Report oracles where the HTML stage fails. -/
def failReportsEnv : ReportsEnv := { html := failHtmlEnv, xml := wXmlEnv, json := wJsonEnv }

/-- Report oracles where the HTML stage succeeds and the XML stage fails. -/
def xmlFailReportsEnv : ReportsEnv := { html := demoHtmlEnv, xml := failXmlEnv, json := wJsonEnv }

/-- Concrete test report with a nil test set. -/
def nilTSReport : TestReport := ⟨none, "", ""⟩

/-- Concrete runner whose report has a nil test set. -/
def nilTSRunner : Runner := { demoRunner with tr := some nilTSReport }

/-- Concrete Run oracles: no callback invocations. -/
def wRunEnv : RunEnv := { nowStart := "t0", nowFinish := "t1", execCalls := [] }

/-- Concrete logging oracles: everything succeeds. -/
def wLogEnv : LogEnv := { fileErr := none, syslogOk := true }

/-- Concrete platform: POSIX with a fixed home and timestamp. -/
def wPlat : Plat := { isWindows := false, getenv := fun _ => "/home/u", nowFile := "20261011" }

/-- Concrete initialize oracles. -/
def wInitEnv : InitEnv :=
  { plat := wPlat, collectRes := none, mkdirErr := none, log := wLogEnv }

/-- Appending strings appends their character data. -/
theorem dataAppend (s t : String) : (s ++ t).data = s.data ++ t.data := rfl

/-- String concatenation is associative. -/
theorem strAppendAssoc (s t u : String) : (s ++ t) ++ u = s ++ (t ++ u) := by
  show String.mk ((s.data ++ t.data) ++ u.data) = String.mk (s.data ++ (t.data ++ u.data))
  exact congrArg String.mk (List.append_assoc s.data t.data u.data)

/-- Taking no more than the first list keeps the take inside it. -/
theorem takeAppendLe (n : Nat) (xs ys : List Char) (h : n ≤ xs.length) :
    (xs ++ ys).take n = xs.take n := by
  induction xs generalizing n with
  | nil =>
    have : n = 0 := Nat.le_zero.mp h
    simp [this]
  | cons a as ih =>
    cases n with
    | zero => simp
    | succ m =>
      simp only [List.cons_append, List.take_succ_cons]
      rw [ih m (Nat.le_of_succ_le_succ h)]

/-- Two strings with distinct prefixes of some common length stay
distinct under arbitrary suffixes. -/
theorem stringPrefixNe (p q a b : String) (n : Nat)
    (hp : n ≤ p.data.length) (hq : n ≤ q.data.length)
    (hne : p.data.take n ≠ q.data.take n) : p ++ a ≠ q ++ b := by
  intro h
  apply hne
  have h2 : p.data ++ a.data = q.data ++ b.data := by
    have := congrArg String.data h
    rwa [dataAppend, dataAppend] at this
  have h3 := congrArg (List.take n) h2
  rwa [takeAppendLe n p.data a.data hp, takeAppendLe n q.data b.data hq] at h3

/-- A prefix of a list is a prefix of any right extension of it. -/
theorem isPrefixB_append (n xs ys : List Char) (h : isPrefixB n xs = true) :
    isPrefixB n (xs ++ ys) = true := by
  induction n generalizing xs with
  | nil => rfl
  | cons a as ih =>
    cases xs with
    | nil => simp [isPrefixB] at h
    | cons b bs =>
      simp only [isPrefixB, Bool.and_eq_true] at h ⊢
      exact ⟨h.1, ih bs h.2⟩

/-- The empty needle occurs in every haystack. -/
theorem containsL_nil (ys : List Char) : containsL [] ys = true := by
  cases ys with
  | nil => rfl
  | cons b bs => simp [containsL, isPrefixB]

/-- A substring of a list is a substring of any right extension of it. -/
theorem containsL_append_left (n xs ys : List Char) (h : containsL n xs = true) :
    containsL n (xs ++ ys) = true := by
  induction xs with
  | nil =>
    cases n with
    | nil => exact containsL_nil ys
    | cons a as => simp [containsL, isPrefixB] at h
  | cons b bs ih =>
    simp only [containsL, Bool.or_eq_true, List.cons_append] at h ⊢
    rcases h with h | h
    · exact Or.inl (isPrefixB_append n (b :: bs) ys h)
    · exact Or.inr (ih h)

/-- A substring of a list is a substring of any left extension of it. -/
theorem containsL_append_right (n xs ys : List Char) (h : containsL n ys = true) :
    containsL n (xs ++ ys) = true := by
  induction xs with
  | nil => exact h
  | cons b bs ih =>
    simp only [containsL, Bool.or_eq_true, List.cons_append]
    exact Or.inr ih

/-- A substring of a string is a substring of any right extension. -/
theorem strContains_append_left (a b n : String) (h : strContains a n = true) :
    strContains (a ++ b) n = true := by
  unfold strContains at *
  rw [dataAppend]
  exact containsL_append_left n.data a.data b.data h

/-- A substring of a string is a substring of any left extension. -/
theorem strContains_append_right (a b n : String) (h : strContains b n = true) :
    strContains (a ++ b) n = true := by
  unfold strContains at *
  rw [dataAppend]
  exact containsL_append_right n.data a.data b.data h

/-- createLoggers never reads the par flag. -/
theorem createLoggers_par (le : LogEnv) (r : Runner) (b : Bool) (format : String) (dbg : Bool) :
    createLoggers le { r with par := b } format dbg = createLoggers le r format dbg := rfl

/-- setWorkDir never reads the par flag: it commutes with setting it. -/
theorem setWorkDir_par (p : Plat) (r : Runner) (b : Bool) (bd tn : String) :
    setWorkDir p { r with par := b } bd tn = { setWorkDir p r bd tn with par := b } := by
  unfold setWorkDir
  by_cases h : bd = "" <;> simp [h]

/-- createLog never reads the par flag: it commutes with setting it. -/
theorem createLog_par (le : LogEnv) (r : Runner) (b : Bool) :
    createLog le { r with par := b } =
      Except.map (fun p => ({ p.1 with par := b }, p.2)) (createLog le r) := by
  unfold createLog
  rcases le with ⟨fe, so⟩
  cases fe <;> simp [createLoggers, Except.map]

/-- collect never reads the par flag: it commutes with setting it. -/
theorem collect_par (ie : InitEnv) (r : Runner) (b : Bool) :
    collect ie { r with par := b } =
      Except.map (fun p => ({ p.1 with par := b }, p.2)) (collect ie r) := by
  unfold collect
  by_cases h : r.input = "" <;> cases hc : ie.collectRes <;> simp [h, hc, Except.map]

/-- The runner initialization never reads the par flag: its effects and
log lines are unchanged and the resulting runner only carries the flag
through. -/
theorem initRunner_par (ie : InitEnv) (r : Runner) (b : Bool) :
    initRunner ie { r with par := b } =
      ((initRunner ie r).1.map (fun x => { x with par := b }),
       (initRunner ie r).2.1, (initRunner ie r).2.2) := by
  unfold initRunner
  rw [collect_par]
  rcases hc : collect ie r with e | ⟨r1, ts⟩
  · rfl
  · simp only [Except.map]
    rw [setWorkDir_par]
    rcases hm : ie.mkdirErr with _ | e2
    · rw [createLog_par]
      rcases hl : createLog ie.log (setWorkDir ie.plat r1 r1.workdir ts.Name) with e3 | ⟨r3, lgs⟩ <;>
        simp [Except.map]
    · simp

/-- C5: setWorkDir agrees with the spec resolveWorkDir on the working
directory — a non-empty basedir is kept, only separator-normalized, and
an empty basedir is replaced by the platform home (USERPROFILE on
windows, HOME on POSIX) joined with atfrunner and name_timestamp, in
forward-slash form — and no other Runner field changes. -/
theorem setWorkDir_meets_spec (p : Plat) (r : Runner) (basedir tsName : String) :
    setWorkDir p r basedir tsName = { r with workdir := resolveWorkDirSpec p basedir tsName } := by
  unfold setWorkDir resolveWorkDirSpec
  by_cases h : basedir = "" <;> simp [h]

/-- C6: with the file handler construction succeeding, createLoggers
yields the file handler at Informational and the stream handler at
Notice when debug is off (the optional syslog handler also at Notice),
and both the file and the stream handler at Debug when debug is on. -/
theorem createLoggers_severity_defaults (env : LogEnv) (r : Runner) (format : String)
    (debug : Bool) (hf : env.fileErr = none) :
    createLoggers env r format debug =
      Except.ok ([⟨HandlerKind.file, if debug then Severity.Debug else Severity.Informational, format⟩,
                  ⟨HandlerKind.stream, if debug then Severity.Debug else Severity.Notice, format⟩] ++
        (if r.syslog ≠ "" ∧ env.syslogOk = true then
           [⟨HandlerKind.syslog, if debug then Severity.Debug else Severity.Notice, format⟩]
         else [])) := by
  unfold createLoggers defFileLevel defSyslogLevel
  rw [hf]
  by_cases hs : r.syslog = "" <;> by_cases ho : env.syslogOk = true <;> simp [hs, ho]

/-- Witness for createLoggers_severity_defaults on concrete inputs. -/
theorem createLoggers_severity_defaults_wit :
    createLoggers wLogEnv NewRunner "%s %s %s" false =
      Except.ok [⟨HandlerKind.file, Severity.Informational, "%s %s %s"⟩,
                 ⟨HandlerKind.stream, Severity.Notice, "%s %s %s"⟩] := by
  have h := createLoggers_severity_defaults wLogEnv NewRunner "%s %s %s" false rfl
  simpa using h

/-- C3: the runner initialization with an empty input path fails with the
configuration error, and no working directory, no log file and no log
output is created. -/
theorem initRunner_empty_input_no_side_effects (env : InitEnv) (r : Runner)
    (h : r.input = "") :
    initRunner env r =
      (Except.error "There's no configuration file defined.", ⟨[], []⟩, []) := by
  unfold initRunner collect
  rw [h]
  simp

/-- Witness for initRunner_empty_input_no_side_effects on a concrete
runner with empty input. -/
theorem initRunner_empty_input_no_side_effects_wit :
    initRunner wInitEnv NewRunner =
      (Except.error "There's no configuration file defined.", ⟨[], []⟩, []) :=
  initRunner_empty_input_no_side_effects wInitEnv NewRunner rfl

/-- C4: the logging callback given to the external executor panics
whenever it receives fewer than two arguments, and with two or more it
forwards the first argument as the level and the second as the message
into the pipeline log stream, ignoring any extra arguments. -/
theorem exec_callback_contract :
    (∀ ps : List String, ps.length < 2 → execCallback ps = none)
  ∧ (∀ lvl msg : String, ∀ rest : List String,
       execCallback (lvl :: msg :: rest) = some (LogCall.str lvl msg))
  ∧ (∀ ps : List String, ps.length < 2 → runExec [ps] = Except.error [])
  ∧ (∀ lvl msg : String, ∀ rest : List String,
       runExec [lvl :: msg :: rest] = Except.ok [LogCall.str lvl msg]) := by
  refine ⟨?_, ?_, ?_, ?_⟩
  · intro ps h
    match ps with
    | [] => rfl
    | [_] => rfl
    | a :: b :: t => simp [List.length_cons] at h; omega
  · intro lvl msg rest
    rfl
  · intro ps h
    match ps with
    | [] => rfl
    | [_] => rfl
    | a :: b :: t => simp [List.length_cons] at h; omega
  · intro lvl msg rest
    rfl

/-- Witness for exec_callback_contract at concrete argument lists. -/
theorem exec_callback_contract_wit :
    execCallback ["only"] = none
  ∧ execCallback ["info", "msg", "extra"] = some (LogCall.str "info" "msg")
  ∧ runExec [["only"]] = Except.error []
  ∧ runExec [["info", "msg", "extra"]] = Except.ok [LogCall.str "info" "msg"] :=
  ⟨exec_callback_contract.1 ["only"] (by decide),
   exec_callback_contract.2.1 "info" "msg" ["extra"],
   exec_callback_contract.2.2.1 ["only"] (by decide),
   exec_callback_contract.2.2.2 "info" "msg" ["extra"]⟩

/-- C1: report generation short-circuits on the first failure — when the
HTML emission fails, two Error lines are logged and neither the XML nor
the JSON report is attempted even though both were requested; when the
HTML emission succeeds and the XML emission fails, the failure is logged
and the JSON report is not attempted. -/
theorem createReports_short_circuits_on_failure (os : Bool) (env : ReportsEnv) (r : Runner) :
    (∀ e : String, r.xml = true → r.json = true →
      createHTMLReport env.html r (htmlReportPath os r) = some (Except.error e) →
      CreateReports os env r =
        some ([LogCall.sev Severity.Error "XML report could not be created.\n",
               LogCall.sev Severity.Error ("Reason: " ++ e ++ "\n")], [Fmt.html], []))
  ∧ (∀ (ws : List (String × String)) (e : String), r.json = true →
      createHTMLReport env.html r (htmlReportPath os r) = some (Except.ok ws) →
      r.xml = true →
      createXMLReport env.xml r (xmlReportPath os r) = Except.error e →
      CreateReports os env r =
        some ([LogCall.sev Severity.Notice ("HTML report " ++ goQuote (htmlReportPath os r) ++ " created.\n"),
               LogCall.sev Severity.Error "XML report could not be created.\n",
               LogCall.sev Severity.Error ("Reason: " ++ e ++ "\n")], [Fmt.html, Fmt.xml], ws)) := by
  constructor
  · intro e _ _ hh
    unfold CreateReports
    rw [hh]
  · intro ws e _ hh hx hxml
    unfold CreateReports
    rw [hh, hx, hxml]
    rfl

/-- Witness for createReports_short_circuits_on_failure: a concrete run
with both extra formats requested where the HTML stage fails. -/
theorem createReports_short_circuits_on_failure_wit :
    CreateReports false failReportsEnv demoRunner =
      some ([LogCall.sev Severity.Error "XML report could not be created.\n",
             LogCall.sev Severity.Error ("Reason: " ++ "boom" ++ "\n")], [Fmt.html], []) :=
  (createReports_short_circuits_on_failure false failReportsEnv demoRunner).1 "boom" rfl rfl rfl

/-- C10: when the HTML emission fails, CreateReports logs at Error level
the label of the XML failure, namely the text of an XML report that could
not be created, followed by the Reason line with the underlying cause;
the label does not mention HTML anywhere. -/
theorem createReports_html_failure_mislabeled (os : Bool) (env : ReportsEnv) (r : Runner)
    (e : String)
    (hh : createHTMLReport env.html r (htmlReportPath os r) = some (Except.error e)) :
    CreateReports os env r =
      some ([LogCall.sev Severity.Error "XML report could not be created.\n",
             LogCall.sev Severity.Error ("Reason: " ++ e ++ "\n")], [Fmt.html], [])
  ∧ strContains "XML report could not be created.\n" "HTML" = false := by
  refine ⟨?_, rfl⟩
  unfold CreateReports
  rw [hh]

/-- Witness for createReports_html_failure_mislabeled on the concrete
failing emission. -/
theorem createReports_html_failure_mislabeled_wit :
    (CreateReports false failReportsEnv demoRunner =
      some ([LogCall.sev Severity.Error "XML report could not be created.\n",
             LogCall.sev Severity.Error ("Reason: " ++ "boom" ++ "\n")], [Fmt.html], []))
  ∧ strContains "XML report could not be created.\n" "HTML" = false :=
  createReports_html_failure_mislabeled false failReportsEnv demoRunner "boom" rfl

/-- C9: with a report present but a nil test set, Run logs the Started
line, skips the executor, and panics on the nil dereference while
formatting the end line, so no Finished line is ever logged: the panic
log trace is exactly the Started line, and the Finished line is not among
the logged lines. -/
theorem run_panics_on_nil_testset (env : RunEnv) (r : Runner) (tr : TestReport)
    (h : r.tr = some tr) (hn : tr.TestSet = none) :
    Run env r = Except.error [LogCall.sev Severity.Notice ("     Started: " ++ env.nowStart ++ "\n")]
  ∧ LogCall.sev Severity.Notice ("     Finished: " ++ env.nowFinish ++ "\n") ∉
      [LogCall.sev Severity.Notice ("     Started: " ++ env.nowStart ++ "\n")] := by
  constructor
  · unfold Run
    rw [h]
    simp [hn]
  · intro hmem
    simp only [List.mem_singleton] at hmem
    injection hmem with hlvl hmsg
    have hne : ("     Finished: " ++ env.nowFinish ++ "\n") ≠ ("     Started: " ++ env.nowStart ++ "\n") := by
      rw [strAppendAssoc, strAppendAssoc]
      exact stringPrefixNe "     Finished: " "     Started: " (env.nowFinish ++ "\n")
        (env.nowStart ++ "\n") 9 (by decide) (by decide) (by decide)
    exact hne hmsg

/-- Witness for run_panics_on_nil_testset on the concrete runner whose
report carries a nil test set. -/
theorem run_panics_on_nil_testset_wit :
    Run wRunEnv nilTSRunner =
      Except.error [LogCall.sev Severity.Notice ("     Started: " ++ "t0" ++ "\n")]
  ∧ LogCall.sev Severity.Notice ("     Finished: " ++ "t1" ++ "\n") ∉
      [LogCall.sev Severity.Notice ("     Started: " ++ "t0" ++ "\n")] :=
  run_panics_on_nil_testset wRunEnv nilTSRunner nilTSReport rfl rfl

/-- C7 (amended): for every successful HTML emission with test-set name
Demo and rendered fragment <p>ok</p>, the written content contains the
substring with the Demo title, and the body is written as the opening
body tag, a newline, the fragment, and the closing body tag directly
after the fragment. -/
theorem createHTMLReport_demo_content (env : HtmlEnv) (r : Runner) (tr : TestReport)
    (ts : TestSet) (f : String)
    (h1 : r.tr = some tr) (h2 : tr.TestSet = some ts) (h3 : ts.Name = "Demo")
    (h4 : env.render = Except.ok "<p>ok</p>") (h5 : env.openErr = none)
    (h6 : env.copyUserErr = none) :
    createHTMLReport env r f =
      some (Except.ok [(f, createHTMLHeader r "Demo" ++ "<body>\n" ++ "<p>ok</p>" ++ "</body>\n</html>\n")])
  ∧ strContains (createHTMLHeader r "Demo" ++ "<body>\n" ++ "<p>ok</p>" ++ "</body>\n</html>\n")
      "<title>Report: Demo</title>" = true
  ∧ strContains (createHTMLHeader r "Demo" ++ "<body>\n" ++ "<p>ok</p>" ++ "</body>\n</html>\n")
      "<body>\n<p>ok</p></body>" = true := by
  refine ⟨?_, ?_, ?_⟩
  · simp [createHTMLReport, h1, h2, h3, h4, h5, h6]
  · apply strContains_append_left
    apply strContains_append_left
    apply strContains_append_left
    simp only [createHTMLHeader]
    apply strContains_append_left
    apply strContains_append_left
    apply strContains_append_left
    apply strContains_append_left
    apply strContains_append_left
    rfl
  · rw [strAppendAssoc, strAppendAssoc]
    apply strContains_append_right
    rfl

/-- Witness for createHTMLReport_demo_content on the concrete demo run. -/
theorem createHTMLReport_demo_content_wit :
    createHTMLReport demoHtmlEnv demoRunner "/w/report.html" =
      some (Except.ok [("/w/report.html",
        createHTMLHeader demoRunner "Demo" ++ "<body>\n" ++ "<p>ok</p>" ++ "</body>\n</html>\n")])
  ∧ strContains (createHTMLHeader demoRunner "Demo" ++ "<body>\n" ++ "<p>ok</p>" ++ "</body>\n</html>\n")
      "<title>Report: Demo</title>" = true
  ∧ strContains (createHTMLHeader demoRunner "Demo" ++ "<body>\n" ++ "<p>ok</p>" ++ "</body>\n</html>\n")
      "<body>\n<p>ok</p></body>" = true :=
  createHTMLReport_demo_content demoHtmlEnv demoRunner demoReport demoTestSet
    "/w/report.html" rfl rfl rfl rfl rfl rfl

/-- C7 counterexample: a successful emission with test-set name Demo and
fragment <p>ok</p> whose written content does not contain the substring
of the body tags directly wrapping the fragment, since a newline stands
between the opening body tag and the fragment. -/
theorem createHTMLReport_demo_no_tight_body_wrap :
    createHTMLReport demoHtmlEnv demoRunner "/w/report.html" =
      some (Except.ok [("/w/report.html", demoContent)])
  ∧ strContains demoContent "<body><p>ok</p></body>" = false := ⟨rfl, rfl⟩

/-- C2 is violated by the code: when the copy of the mandatory CSS file
fails and the copy of the user CSS succeeds, createHTMLReport still
returns success, because the error of the first copy is overwritten by
the result of the second copy before the error check. -/
theorem createHTMLReport_swallows_mandatory_css_copy_error :
    cssFailEnv.copyMandErr = some "open cfg/always.css: permission denied"
  ∧ createHTMLReport cssFailEnv demoRunner "/w/report.html" =
      some (Except.ok [("/w/report.html", demoContent)]) := ⟨rfl, rfl⟩

/-- C8: the par flag is inert — two whole program runs identical except
for the value of the par field produce identical observables (standard
output, log calls and their order, on-disk effects, report files and
formats, exit status, panic status), and likewise a run on a runner after
SetParallel. -/
theorem par_flag_inert (ie : InitEnv) (re : RunEnv) (cre : ReportsEnv) (os : Bool)
    (r : Runner) (b : Bool) :
    mainGo ie re cre os { r with par := b } = mainGo ie re cre os r
  ∧ mainGo ie re cre os (SetParallel r) = mainGo ie re cre os r := by
  have key : ∀ c : Bool, mainGo ie re cre os { r with par := c } = mainGo ie re cre os r := by
    intro c
    unfold mainGo
    rw [initRunner_par]
    rcases hi : initRunner ie r with ⟨res, eff, lgs⟩
    rcases res with e | r1
    · rfl
    · rfl
  exact ⟨key b, key true⟩
